import Mathlib

/-!
# Verification of the marker-clustering engine

Shallow embedding of the clustering module of this repository
(`src/hooks/useDebounced.ts`, clustering segment, together with the data
model of `src/types/index.ts`), and proofs of the specified properties.

JavaScript `number` is modelled by `ℝ`; `Math.cos`, `Math.sin`,
`Math.sqrt`, `Math.atan2`, `Math.pow` are modelled by the corresponding
real functions; the global `Map` used as cluster cache is modelled by an
association list in insertion order, threaded explicitly through the
cached entry point.
-/

open Real

/-! ## Data model (`src/types/index.ts`) -/

structure Coordinates where
  latitude : ℝ
  longitude : ℝ

structure BoundingBox where
  north : ℝ
  south : ℝ
  east : ℝ
  west : ℝ

structure PriceRange where
  min : ℝ
  max : ℝ

structure MapBounds where
  northeast : Coordinates
  southwest : Coordinates

structure MapViewport where
  bounds : MapBounds
  center : Coordinates
  zoom : ℝ

/-- `price_per_night: number | string` — the repository's hotel data has
inconsistent price types, a number or a string. -/
inductive PriceValue where
  | num (x : ℝ)
  | str (s : String)

structure Hotel where
  hotel_id : ℕ
  name : String
  latitude : ℝ
  longitude : ℝ
  address : String
  star_rating : ℝ
  price_per_night : PriceValue
  currency : String
  rating : ℝ
  review_count : ℕ
  image_url : String
  room_type : String
  amenities : List String

structure HotelCluster where
  id : String
  center : Coordinates
  hotels : List Hotel
  count : ℕ
  avgRating : ℝ
  priceRange : PriceRange
  bounds : BoundingBox

structure ClusteringConfig where
  minZoom : ℝ
  maxZoom : ℝ
  clusterRadius : ℝ
  maxClusterSize : ℝ
  pixelRadius : ℝ

/-- The `{ clusters, individualHotels }` record returned by
`calculateClusters`. -/
structure ClusteringResult where
  clusters : List HotelCluster
  individualHotels : List Hotel

/-! ## Models of JavaScript builtins used by the module -/

/-- Model of JavaScript `Math.atan2(y, x)`: the angle of the point
`(x, y)`, in `(-π, π]`, with `atan2 0 0 = 0`. -/
noncomputable def atan2 (y x : ℝ) : ℝ :=
  if 0 < x then Real.arctan (y / x)
  else if x < 0 then
    (if 0 ≤ y then Real.arctan (y / x) + π else Real.arctan (y / x) - π)
  else if 0 < y then π / 2
  else if y < 0 then -(π / 2)
  else 0

/-- Digit run to a natural number, e.g. `['4','2'] ↦ 42`. -/
def digitsToNat (cs : List Char) : ℕ :=
  cs.foldl (fun n c => 10 * n + (c.toNat - 48)) 0

/-- Model of the JavaScript builtin `parseFloat` on the decimal shapes the
repository's data contains (optional sign, digits, optional fractional
part; exponents and special values are outside the model and parse to
`none`, as does any string with no leading numeric prefix). -/
def jsParseFloat (s : String) : Option ℚ :=
  let cs := s.toList.dropWhile (fun c => c.isWhitespace)
  let signAndRest : Bool × List Char :=
    match cs with
    | '-' :: rest => (true, rest)
    | '+' :: rest => (false, rest)
    | rest => (false, rest)
  let intDigits := signAndRest.2.takeWhile (fun c => c.isDigit)
  let afterInt := signAndRest.2.dropWhile (fun c => c.isDigit)
  let fracDigits : List Char :=
    match afterInt with
    | '.' :: r => r.takeWhile (fun c => c.isDigit)
    | _ => []
  if intDigits.isEmpty ∧ fracDigits.isEmpty then none
  else
    let mag : ℚ := (digitsToNat intDigits : ℚ) +
      (digitsToNat fracDigits : ℚ) / (10 ^ fracDigits.length)
    some (if signAndRest.1 then -mag else mag)

/-- The price coercion of `getClusterPriceRange`:
`typeof p === 'number' ? p : parseFloat(p.toString()) || 0`.
A failed parse (`NaN`) is falsy and yields `0`; so does a parsed `0`. -/
noncomputable def PriceValue.toNumber : PriceValue → ℝ
  | .num x => x
  | .str s =>
    match jsParseFloat s with
    | some q => if q = 0 then 0 else (q : ℝ)
    | none => 0

/-- Model of JavaScript `Math.min(...xs)` on a spread list; the module
only ever calls it with a non-empty list (`hotels.length === 0` is
handled before), so the empty case is given a default. -/
noncomputable def mathMin : List ℝ → ℝ
  | [] => 0
  | x :: xs => xs.foldl min x

/-- Model of JavaScript `Math.max(...xs)` on a spread list; as with
`mathMin` the empty case is unreachable in the module. -/
noncomputable def mathMax : List ℝ → ℝ
  | [] => 0
  | x :: xs => xs.foldl max x

/-- Model of JavaScript `x.toFixed(1)` (used on `viewport.zoom`):
round to one decimal and print with exactly one fractional digit. -/
noncomputable def toFixed1 (x : ℝ) : String :=
  let n : ℤ := ⌊|x| * 10 + 1 / 2⌋
  let core := toString (n / 10) ++ "." ++ toString (n % 10)
  if x < 0 then "-" ++ core else core

open Classical in
/-- Model of JavaScript number-to-string coercion (template literal
`${config.clusterRadius}`), faithful on integral values — the only
values the repository's configs use; non-integral values are outside
the model and mapped to a fixed token. -/
noncomputable def jsNumberString (x : ℝ) : String :=
  if h : ∃ n : ℤ, (n : ℝ) = x then toString h.choose else "non-integral"

/-! ## Clustering configuration and utilities
(`src/hooks/useDebounced.ts`, clustering segment) -/

def DEFAULT_CLUSTERING_CONFIG : ClusteringConfig :=
  { minZoom := 8
    maxZoom := 14
    clusterRadius := 50
    maxClusterSize := 50
    pixelRadius := 40 }

/-- `shouldCluster`: clustering is enabled for
`zoom >= config.minZoom && zoom <= config.maxZoom`. -/
def shouldCluster (zoom : ℝ) (config : ClusteringConfig) : Prop :=
  config.minZoom ≤ zoom ∧ zoom ≤ config.maxZoom

noncomputable instance (zoom : ℝ) (config : ClusteringConfig) :
    Decidable (shouldCluster zoom config) :=
  inferInstanceAs (Decidable (config.minZoom ≤ zoom ∧ zoom ≤ config.maxZoom))

/-- `calculateDistance`: haversine distance in kilometers between two
coordinates, Earth radius 6371 km. -/
noncomputable def calculateDistance (coord1 coord2 : Coordinates) : ℝ :=
  let R : ℝ := 6371
  let dLat := (coord2.latitude - coord1.latitude) * π / 180
  let dLon := (coord2.longitude - coord1.longitude) * π / 180
  let a := Real.sin (dLat / 2) * Real.sin (dLat / 2) +
    Real.cos (coord1.latitude * π / 180) * Real.cos (coord2.latitude * π / 180) *
    Real.sin (dLon / 2) * Real.sin (dLon / 2)
  let c := 2 * atan2 (Real.sqrt a) (Real.sqrt (1 - a))
  R * c

/-- `geoDistanceToPixelDistance`: geographic (km) to pixel distance at a
latitude and zoom, Web-Mercator scale `156543.03392 * cos(latRad) / 2^zoom`. -/
noncomputable def geoDistanceToPixelDistance
    (geoDistance latitude zoom : ℝ) : ℝ :=
  let metersPerPixel := 156543.03392 * Real.cos (latitude * π / 180) / (2 : ℝ) ^ zoom
  (geoDistance * 1000) / metersPerPixel

/-- `pixelDistanceToGeoDistance`: pixel distance to geographic (km) at a
latitude and zoom. -/
noncomputable def pixelDistanceToGeoDistance
    (pixelDistance latitude zoom : ℝ) : ℝ :=
  let metersPerPixel := 156543.03392 * Real.cos (latitude * π / 180) / (2 : ℝ) ^ zoom
  (pixelDistance * metersPerPixel) / 1000

/-- `getClusterBounds`: bounding box of a hotel list; `{0,0,0,0}` for the
empty list. -/
noncomputable def getClusterBounds (hotels : List Hotel) : BoundingBox :=
  match hotels with
  | [] => { north := 0, south := 0, east := 0, west := 0 }
  | h0 :: _ =>
    hotels.foldl
      (fun bb h =>
        { north := max bb.north h.latitude
          south := min bb.south h.latitude
          east := max bb.east h.longitude
          west := min bb.west h.longitude })
      { north := h0.latitude, south := h0.latitude
        east := h0.longitude, west := h0.longitude }

/-- `getClusterCenter`: arithmetic mean of latitudes and longitudes;
`{0,0}` for the empty list. -/
noncomputable def getClusterCenter (hotels : List Hotel) : Coordinates :=
  if hotels.length = 0 then { latitude := 0, longitude := 0 }
  else
    { latitude := (hotels.foldl (fun sum h => sum + h.latitude) 0) / hotels.length
      longitude := (hotels.foldl (fun sum h => sum + h.longitude) 0) / hotels.length }

/-- `getClusterAvgRating`: mean rating; `0` for the empty list. -/
noncomputable def getClusterAvgRating (hotels : List Hotel) : ℝ :=
  if hotels.length = 0 then 0
  else (hotels.foldl (fun sum h => sum + h.rating) 0) / hotels.length

/-- `getClusterPriceRange`: min/max of coerced prices; `{0,0}` for the
empty list. -/
noncomputable def getClusterPriceRange (hotels : List Hotel) : PriceRange :=
  if hotels.length = 0 then { min := 0, max := 0 }
  else
    let prices := hotels.map (fun h => h.price_per_night.toNumber)
    { min := mathMin prices, max := mathMax prices }

/-- The cluster object pushed by `groupHotelsByProximity` for seed index
`i` and collected member list `clusterHotels`:
`id` is the template literal `` `cluster-${i}-${clusterHotels.length}` ``. -/
noncomputable def mkCluster (i : ℕ) (clusterHotels : List Hotel) : HotelCluster :=
  { id := "cluster-" ++ toString i ++ "-" ++ toString clusterHotels.length
    center := getClusterCenter clusterHotels
    hotels := clusterHotels
    count := clusterHotels.length
    avgRating := getClusterAvgRating clusterHotels
    priceRange := getClusterPriceRange clusterHotels
    bounds := getClusterBounds clusterHotels }

/-- The inner `j` loop of `groupHotelsByProximity`: scan the enumerated
hotels after the seed, adding each unprocessed one within
`clusterRadiusGeo` of the seed while the group is below
`maxClusterSize`. -/
noncomputable def innerLoop (seed : Hotel) (clusterRadiusGeo maxClusterSize : ℝ) :
    List (ℕ × Hotel) → List Hotel → Finset ℕ → List Hotel × Finset ℕ
  | [], clusterHotels, processed => (clusterHotels, processed)
  | (j, otherHotel) :: rest, clusterHotels, processed =>
    if j ∈ processed then
      innerLoop seed clusterRadiusGeo maxClusterSize rest clusterHotels processed
    else if calculateDistance
          { latitude := seed.latitude, longitude := seed.longitude }
          { latitude := otherHotel.latitude, longitude := otherHotel.longitude }
          ≤ clusterRadiusGeo ∧ (clusterHotels.length : ℝ) < maxClusterSize then
      innerLoop seed clusterRadiusGeo maxClusterSize rest
        (clusterHotels ++ [otherHotel]) (insert j processed)
    else
      innerLoop seed clusterRadiusGeo maxClusterSize rest clusterHotels processed

/-- The outer `i` loop of `groupHotelsByProximity`: each unprocessed hotel
seeds a group over the remaining hotels; groups of size `> 1` are pushed
as clusters. -/
noncomputable def outerLoop (clusterRadiusGeo maxClusterSize : ℝ) :
    List (ℕ × Hotel) → List HotelCluster → Finset ℕ → List HotelCluster
  | [], clusters, _ => clusters
  | (i, hotel) :: rest, clusters, processed =>
    if i ∈ processed then
      outerLoop clusterRadiusGeo maxClusterSize rest clusters processed
    else
      let res := innerLoop hotel clusterRadiusGeo maxClusterSize rest
        [hotel] (insert i processed)
      if 1 < res.1.length then
        outerLoop clusterRadiusGeo maxClusterSize rest
          (clusters ++ [mkCluster i res.1]) res.2
      else
        outerLoop clusterRadiusGeo maxClusterSize rest clusters res.2

/-- `groupHotelsByProximity`: greedy proximity grouping. Empty and
single-hotel inputs yield no clusters; otherwise the pixel radius is
converted to kilometers at the mean latitude of all hotels and the
indexed greedy scan runs. -/
noncomputable def groupHotelsByProximity
    (hotels : List Hotel) (zoom : ℝ) (config : ClusteringConfig) :
    List HotelCluster :=
  if hotels.length = 0 then []
  else if hotels.length = 1 then []
  else
    let avgLatitude := (hotels.foldl (fun sum h => sum + h.latitude) (0 : ℝ)) / (hotels.length : ℝ)
    let clusterRadiusGeo := pixelDistanceToGeoDistance config.clusterRadius avgLatitude zoom
    outerLoop clusterRadiusGeo config.maxClusterSize hotels.enum [] ∅

/-- `calculateClusters`: main entry point. Outside the clustering zoom
range everything is individual; otherwise hotels whose id landed in no
cluster are the individual hotels. -/
noncomputable def calculateClusters
    (hotels : List Hotel) (viewport : MapViewport) (config : ClusteringConfig) :
    ClusteringResult :=
  if shouldCluster viewport.zoom config then
    let clusters := groupHotelsByProximity hotels viewport.zoom config
    let clusteredHotelIds :=
      (clusters.flatMap (fun cluster => cluster.hotels.map (fun h => h.hotel_id))).toFinset
    let individualHotels := hotels.filter (fun hotel => hotel.hotel_id ∉ clusteredHotelIds)
    { clusters := clusters, individualHotels := individualHotels }
  else
    { clusters := [], individualHotels := hotels }

/-- `calculateClustersOptimized`: for `hotels.length <= 100` use simple
clustering; the large-dataset path is a TODO in the source and also
falls through to simple clustering. -/
noncomputable def calculateClustersOptimized
    (hotels : List Hotel) (viewport : MapViewport) (config : ClusteringConfig) :
    ClusteringResult :=
  if hotels.length ≤ 100 then calculateClusters hotels viewport config
  else calculateClusters hotels viewport config

/-! ## Cluster cache (`clusterCache`, a module-level `Map` in insertion
order, modelled as explicit state) -/

structure ClusterCache where
  entries : List (String × ClusteringResult)

/-- The module-level `new Map()` before any call. -/
def emptyClusterCache : ClusterCache := ⟨[]⟩

/-- The cache key of `calculateClustersCached`:
`` `${hotels.length}-${viewport.zoom.toFixed(1)}-${config.clusterRadius}` ``. -/
noncomputable def clusterCacheKey
    (hotels : List Hotel) (viewport : MapViewport) (config : ClusteringConfig) :
    String :=
  toString hotels.length ++ "-" ++ toFixed1 viewport.zoom ++ "-" ++
    jsNumberString config.clusterRadius

/-- The eviction step: `clusterCache.keys().next().value` is the first
inserted key; `if (firstKey)` skips deletion when the map is empty
(`undefined`) or the first key is the empty string (both falsy). -/
def evictFirst : List (String × ClusteringResult) → List (String × ClusteringResult)
  | [] => []
  | (k, v) :: rest => if k = "" then (k, v) :: rest else rest

/-- `calculateClustersCached`: on a key hit return the stored result; on
a miss compute, evict the first inserted entry when `size > 50`, then
insert at the end (JS `Map.set` appends fresh keys in insertion order). -/
noncomputable def calculateClustersCached
    (cache : ClusterCache) (hotels : List Hotel) (viewport : MapViewport)
    (config : ClusteringConfig) : ClusteringResult × ClusterCache :=
  let cacheKey := clusterCacheKey hotels viewport config
  match cache.entries.lookup cacheKey with
  | some result => (result, cache)
  | none =>
    let result := calculateClustersOptimized hotels viewport config
    let entries₁ := if 50 < cache.entries.length then evictFirst cache.entries
      else cache.entries
    (result, ⟨entries₁ ++ [(cacheKey, result)]⟩)

/-- `clearClusterCache`: `clusterCache.clear()`. -/
def clearClusterCache (_cache : ClusterCache) : ClusterCache := ⟨[]⟩

/-- A sequence of `calculateClustersCached` calls threaded through the
cache state. -/
noncomputable def runCached :
    ClusterCache → List (List Hotel × MapViewport × ClusteringConfig) → ClusterCache
  | cache, [] => cache
  | cache, (hotels, viewport, config) :: rest =>
    runCached (calculateClustersCached cache hotels viewport config).2 rest

/-- The cluster identity scheme of the specification (and of the
repository's `ANIMATION_JITTER_FIXES.md` "AFTER" code): `"cluster-"`
followed by the member hotel ids sorted ascending and joined by `"-"`.
Stated from the spec's words, for comparison with the `mkCluster` id the
source actually computes. -/
def specClusterId (members : List Hotel) : String :=
  "cluster-" ++
    String.intercalate "-"
      (((members.map (fun h => h.hotel_id)).insertionSort (fun a b => a ≤ b)).map toString)

/-! ## Basic lemmas -/

/-- The haversine formula is symmetric in its two coordinates. -/
lemma calculateDistance_symm (c1 c2 : Coordinates) :
    calculateDistance c1 c2 = calculateDistance c2 c1 := by
  unfold calculateDistance
  have hlat : (c1.latitude - c2.latitude) * π / 180 = -((c2.latitude - c1.latitude) * π / 180) := by
    ring
  have hlon : (c1.longitude - c2.longitude) * π / 180 = -((c2.longitude - c1.longitude) * π / 180) := by
    ring
  simp only [hlat, hlon, neg_div, Real.sin_neg]
  ring_nf

/-! ## C10: the optimized entry point agrees with plain clustering -/

/-- Both branches of `calculateClustersOptimized`'s size test call the
same function. -/
lemma calculateClustersOptimized_eq
    (hotels : List Hotel) (viewport : MapViewport) (config : ClusteringConfig) :
    calculateClustersOptimized hotels viewport config =
      calculateClusters hotels viewport config := by
  unfold calculateClustersOptimized
  split <;> rfl

/-- C10. For every hotel list, viewport and config,
`calculateClustersOptimized` returns exactly `calculateClusters` on the
same arguments: both branches of its size test call the same function. -/
theorem claim_C10_optimized_eq
    (hotels : List Hotel) (viewport : MapViewport) (config : ClusteringConfig) :
    calculateClustersOptimized hotels viewport config =
      calculateClusters hotels viewport config :=
  calculateClustersOptimized_eq hotels viewport config

/-! ## C5: aggregator functions on the empty list -/

/-- C5 counterexample. At the explicit concrete input `[]`, the
aggregators return ordinary values (`{0,0}` center, `0` rating) instead
of failing with an `InvalidArgument` error as the claim states. -/
theorem claim_C5_cex :
    getClusterCenter [] = { latitude := 0, longitude := 0 } ∧
      getClusterAvgRating [] = 0 := by
  exact ⟨rfl, rfl⟩

/-- C5 amended. Calling any of the four aggregator functions with an
empty hotel list returns a zero-valued default (`{0,0,0,0}` bounds,
`{0,0}` center, `0` mean rating, `{0,0}` price range) rather than
failing. -/
theorem claim_C5_amended :
    getClusterBounds [] = { north := 0, south := 0, east := 0, west := 0 } ∧
      getClusterCenter [] = { latitude := 0, longitude := 0 } ∧
      getClusterAvgRating [] = 0 ∧
      getClusterPriceRange [] = { min := 0, max := 0 } := by
  exact ⟨rfl, rfl, rfl, rfl⟩

/-! ## C6: projection math with negative zoom -/

/-- C6 counterexample. At the explicit concrete input
`geoDistance = 1, latitude = 0, zoom = -1`, the conversion returns the
ordinary positive number `1000 / 313086.06784` — there is no zoom
validation and no sentinel or domain error. -/
theorem claim_C6_cex :
    geoDistanceToPixelDistance 1 0 (-1) = 1000 / 313086.06784 ∧
      0 < geoDistanceToPixelDistance 1 0 (-1) := by
  have hr : ((2 : ℝ) ^ (-1 : ℝ)) = 2⁻¹ := by
    rw [show ((-1 : ℝ)) = ((-1 : ℤ) : ℝ) by norm_num, Real.rpow_intCast]
    norm_num
  constructor
  · unfold geoDistanceToPixelDistance
    rw [hr]
    norm_num
  · unfold geoDistanceToPixelDistance
    rw [hr]
    norm_num

/-- C6 amended. `geoDistanceToPixelDistance` performs no validation of
`zoom`: for `zoom < 0` it evaluates the same Web-Mercator formula and
returns an ordinary numeric result, positive whenever the distance is
positive and the latitude's cosine is positive. -/
theorem claim_C6_amended
    (geoDistance latitude zoom : ℝ) (hd : 0 < geoDistance)
    (hcos : 0 < Real.cos (latitude * π / 180)) (_hz : zoom < 0) :
    0 < geoDistanceToPixelDistance geoDistance latitude zoom := by
  unfold geoDistanceToPixelDistance
  refine div_pos (by positivity) (div_pos (mul_pos (by norm_num) hcos) ?_)
  exact Real.rpow_pos_of_pos (by norm_num) zoom

/-- C6 witness: the amended theorem applied at
`geoDistance = 1, latitude = 0, zoom = -1`. -/
theorem claim_C6_witness :
    0 < geoDistanceToPixelDistance 1 0 (-1) := by
  refine claim_C6_amended 1 0 (-1) (by norm_num) ?_ (by norm_num)
  rw [zero_mul, zero_div, Real.cos_zero]
  norm_num

/-! ## C9: pixel/geo distance conversions are mutual inverses -/

/-- C9. For every distance, latitude with nonzero cosine, and zoom
`z ≥ 0`, converting a geographic distance to pixels and back at the same
latitude and zoom returns the distance exactly. -/
theorem claim_C9_roundtrip (d latitude zoom : ℝ)
    (hcos : Real.cos (latitude * π / 180) ≠ 0) (_hz : 0 ≤ zoom) :
    pixelDistanceToGeoDistance (geoDistanceToPixelDistance d latitude zoom)
      latitude zoom = d := by
  unfold geoDistanceToPixelDistance pixelDistanceToGeoDistance
  have hpow : ((2 : ℝ) ^ zoom) ≠ 0 := (Real.rpow_pos_of_pos (by norm_num) zoom).ne'
  field_simp

/-- C9 witness: the round trip applied at `d = 1, latitude = 0, zoom = 0`. -/
theorem claim_C9_witness :
    pixelDistanceToGeoDistance (geoDistanceToPixelDistance 1 0 0) 0 0 = 1 := by
  refine claim_C9_roundtrip 1 0 0 ?_ le_rfl
  rw [zero_mul, zero_div, Real.cos_zero]
  norm_num

/-! ## C7: the cluster cache is bounded with FIFO eviction -/

/-- Every cache key produced by the template literal contains two
separators, hence is never the empty string. -/
lemma clusterCacheKey_ne_empty
    (hotels : List Hotel) (viewport : MapViewport) (config : ClusteringConfig) :
    clusterCacheKey hotels viewport config ≠ "" := by
  intro heq
  have hl := congrArg String.length heq
  simp only [clusterCacheKey, String.length_append,
    show ("-" : String).length = 1 from rfl,
    show ("" : String).length = 0 from rfl] at hl
  omega

/-- Unfolding of `calculateClustersCached` on a cache hit. -/
lemma calculateClustersCached_hit
    (cache : ClusterCache) (hotels : List Hotel) (viewport : MapViewport)
    (config : ClusteringConfig) (r : ClusteringResult)
    (hhit : List.lookup (clusterCacheKey hotels viewport config) cache.entries = some r) :
    calculateClustersCached cache hotels viewport config = (r, cache) := by
  simp [calculateClustersCached, hhit]

/-- Unfolding of `calculateClustersCached` on a cache miss. -/
lemma calculateClustersCached_miss
    (cache : ClusterCache) (hotels : List Hotel) (viewport : MapViewport)
    (config : ClusteringConfig)
    (hmiss : List.lookup (clusterCacheKey hotels viewport config) cache.entries = none) :
    calculateClustersCached cache hotels viewport config =
      (calculateClustersOptimized hotels viewport config,
        ⟨(if 50 < cache.entries.length then evictFirst cache.entries
            else cache.entries) ++
          [(clusterCacheKey hotels viewport config,
            calculateClustersOptimized hotels viewport config)]⟩) := by
  simp [calculateClustersCached, hmiss]

/-- The cache invariant maintained by `calculateClustersCached`: at most
51 entries (the source checks `size > 50` before inserting, so the
steady-state maximum is 51), all with nonempty keys. -/
def CacheInv (cache : ClusterCache) : Prop :=
  cache.entries.length ≤ 51 ∧ ∀ kv ∈ cache.entries, kv.1 ≠ ""

lemma evictFirst_length_lt (l : List (String × ClusteringResult))
    (hne : l ≠ []) (hk : ∀ kv ∈ l, kv.1 ≠ "") :
    (evictFirst l).length < l.length := by
  cases l with
  | nil => exact absurd rfl hne
  | cons kv rest =>
    obtain ⟨k, v⟩ := kv
    have : k ≠ "" := hk (k, v) (List.mem_cons_self _ _)
    simp [evictFirst, this]

lemma evictFirst_subset (l : List (String × ClusteringResult)) :
    ∀ kv ∈ evictFirst l, kv ∈ l := by
  cases l with
  | nil => simp [evictFirst]
  | cons kv rest =>
    obtain ⟨k, v⟩ := kv
    by_cases hk : k = ""
    · subst hk
      simp [evictFirst]
    · intro p hp
      simp only [evictFirst, if_neg hk] at hp
      exact List.mem_cons_of_mem _ hp

lemma calculateClustersCached_inv
    (cache : ClusterCache) (hotels : List Hotel) (viewport : MapViewport)
    (config : ClusteringConfig) (hinv : CacheInv cache) :
    CacheInv (calculateClustersCached cache hotels viewport config).2 := by
  obtain ⟨hlen, hkeys⟩ := hinv
  cases hlk : List.lookup (clusterCacheKey hotels viewport config) cache.entries with
  | some r =>
    rw [calculateClustersCached_hit cache hotels viewport config r hlk]
    exact ⟨hlen, hkeys⟩
  | none =>
    rw [calculateClustersCached_miss cache hotels viewport config hlk]
    by_cases hbig : 50 < cache.entries.length
    · have hne : cache.entries ≠ [] := by
        intro h0
        rw [h0] at hbig
        simp at hbig
      have hlt := evictFirst_length_lt cache.entries hne hkeys
      constructor
      · simp only [if_pos hbig, List.length_append, List.length_cons, List.length_nil]
        omega
      · intro kv hkv
        simp only [if_pos hbig] at hkv
        rcases List.mem_append.mp hkv with h | h
        · exact hkeys kv (evictFirst_subset _ kv h)
        · simp at h
          rw [h]
          exact clusterCacheKey_ne_empty hotels viewport config
    · constructor
      · simp only [if_neg hbig, List.length_append, List.length_cons, List.length_nil]
        omega
      · intro kv hkv
        simp only [if_neg hbig] at hkv
        rcases List.mem_append.mp hkv with h | h
        · exact hkeys kv h
        · simp at h
          rw [h]
          exact clusterCacheKey_ne_empty hotels viewport config

lemma runCached_inv (calls : List (List Hotel × MapViewport × ClusteringConfig)) :
    ∀ cache : ClusterCache, CacheInv cache → CacheInv (runCached cache calls) := by
  induction calls with
  | nil => intro cache h; exact h
  | cons c rest ih =>
    intro cache h
    obtain ⟨hotels, viewport, config⟩ := c
    exact ih _ (calculateClustersCached_inv cache hotels viewport config h)

/-- C7. The cache is capacity-bounded and FIFO: (1) no sequence of
cached-clustering calls starting from the empty cache ever exceeds 51
entries; (2) when the cache is full (at its 51-entry steady-state
maximum, all keys nonempty) and the key misses, the oldest inserted
entry is dropped and the new entry appended at the end; (3)
`clearClusterCache` removes all entries. -/
theorem claim_C7_cache :
    (∀ calls : List (List Hotel × MapViewport × ClusteringConfig),
        (runCached emptyClusterCache calls).entries.length ≤ 51) ∧
    (∀ (cache : ClusterCache) (hotels : List Hotel) (viewport : MapViewport)
        (config : ClusteringConfig),
        cache.entries.length = 51 →
        (∀ kv ∈ cache.entries, kv.1 ≠ "") →
        List.lookup (clusterCacheKey hotels viewport config) cache.entries = none →
        (calculateClustersCached cache hotels viewport config).2.entries =
          cache.entries.tail ++
            [(clusterCacheKey hotels viewport config,
              (calculateClustersCached cache hotels viewport config).1)]) ∧
    (∀ cache : ClusterCache, (clearClusterCache cache).entries = []) := by
  refine ⟨?_, ?_, fun _ => rfl⟩
  · intro calls
    exact (runCached_inv calls emptyClusterCache
      ⟨by simp [emptyClusterCache], by simp [emptyClusterCache]⟩).1
  · intro cache hotels viewport config hlen hkeys hmiss
    rw [calculateClustersCached_miss cache hotels viewport config hmiss]
    have hbig : 50 < cache.entries.length := by omega
    rw [if_pos hbig]
    cases hent : cache.entries with
    | nil => rw [hent] at hlen; simp at hlen
    | cons kv rest =>
      obtain ⟨k, v⟩ := kv
      have hk : k ≠ "" := by
        refine hkeys (k, v) ?_
        rw [hent]
        exact List.mem_cons_self _ _
      simp only [evictFirst, if_neg hk, List.tail_cons]

/-- A viewport at zoom 12 used for concrete instantiations. -/
def witnessViewport : MapViewport :=
  { bounds := { northeast := { latitude := 0, longitude := 0 }
                southwest := { latitude := 0, longitude := 0 } }
    center := { latitude := 0, longitude := 0 }
    zoom := 12 }

/-- A concrete full cache: 51 entries, all keyed `"a"`. -/
def witnessCache51 : ClusterCache :=
  ⟨List.replicate 51 ("a", ⟨[], []⟩)⟩

lemma lookup_replicate_of_ne (n : ℕ) (k a : String) (v : ClusteringResult)
    (hne : k ≠ a) : List.lookup k (List.replicate n (a, v)) = none := by
  induction n with
  | zero => simp
  | succ m ih =>
    rw [List.replicate_succ]
    simp only [List.lookup, beq_false_of_ne hne]
    exact ih

lemma clusterCacheKey_ne_a
    (hotels : List Hotel) (viewport : MapViewport) (config : ClusteringConfig) :
    clusterCacheKey hotels viewport config ≠ "a" := by
  intro heq
  have hl := congrArg String.length heq
  simp only [clusterCacheKey, String.length_append,
    show ("-" : String).length = 1 from rfl,
    show ("a" : String).length = 1 from rfl] at hl
  omega

/-- C7 witness: the bound after one call from the empty cache, the FIFO
step on a concrete full 51-entry cache with a missing key, and clearing
that cache. -/
theorem claim_C7_witness :
    (runCached emptyClusterCache
        [([], witnessViewport, DEFAULT_CLUSTERING_CONFIG)]).entries.length ≤ 51 ∧
    (calculateClustersCached witnessCache51 [] witnessViewport
          DEFAULT_CLUSTERING_CONFIG).2.entries =
      witnessCache51.entries.tail ++
        [(clusterCacheKey [] witnessViewport DEFAULT_CLUSTERING_CONFIG,
          (calculateClustersCached witnessCache51 [] witnessViewport
            DEFAULT_CLUSTERING_CONFIG).1)] ∧
    (clearClusterCache witnessCache51).entries = [] := by
  refine ⟨claim_C7_cache.1 _, claim_C7_cache.2.1 witnessCache51 [] witnessViewport
    DEFAULT_CLUSTERING_CONFIG (by simp [witnessCache51]) ?_ ?_,
    claim_C7_cache.2.2 witnessCache51⟩
  · intro kv hkv
    rw [List.eq_of_mem_replicate hkv]
    decide
  · exact lookup_replicate_of_ne 51 _ "a" _
      (clusterCacheKey_ne_a [] witnessViewport DEFAULT_CLUSTERING_CONFIG)

/-! ## Exact evaluation of the haversine distance on the equator -/

/-- On the equator the haversine formula is exactly linear in the
longitude difference (for a difference in `[0, 1]` degrees). -/
lemma calculateDistance_equator (x y : ℝ) (h0 : 0 ≤ y - x) (h1 : y - x ≤ 1) :
    calculateDistance ⟨0, x⟩ ⟨0, y⟩ = 6371 * ((y - x) * π / 180) := by
  have hpi := Real.pi_pos
  have ht0 : 0 ≤ (y - x) * π / 180 / 2 := by positivity
  have htlt : (y - x) * π / 180 / 2 < π / 2 := by nlinarith
  have hsin : 0 ≤ Real.sin ((y - x) * π / 180 / 2) :=
    Real.sin_nonneg_of_nonneg_of_le_pi ht0 (by linarith)
  have hcos : 0 < Real.cos ((y - x) * π / 180 / 2) :=
    Real.cos_pos_of_mem_Ioo ⟨by linarith, htlt⟩
  simp only [calculateDistance]
  have e0 : ((0:ℝ) - 0) * π / 180 / 2 = 0 := by ring
  have e1 : ((0:ℝ)) * π / 180 = 0 := by ring
  rw [e0, e1, Real.sin_zero, Real.cos_zero]
  have ea : (0:ℝ) * 0 + 1 * 1 * Real.sin ((y - x) * π / 180 / 2) * Real.sin ((y - x) * π / 180 / 2)
      = Real.sin ((y - x) * π / 180 / 2) ^ 2 := by ring
  rw [ea]
  have hsq : Real.sqrt (Real.sin ((y - x) * π / 180 / 2) ^ 2) =
      Real.sin ((y - x) * π / 180 / 2) := Real.sqrt_sq hsin
  have h1a : 1 - Real.sin ((y - x) * π / 180 / 2) ^ 2 =
      Real.cos ((y - x) * π / 180 / 2) ^ 2 := by
    rw [Real.cos_sq']
  have hsq2 : Real.sqrt (1 - Real.sin ((y - x) * π / 180 / 2) ^ 2) =
      Real.cos ((y - x) * π / 180 / 2) := by
    rw [h1a]
    exact Real.sqrt_sq hcos.le
  rw [hsq, hsq2]
  rw [show atan2 (Real.sin ((y - x) * π / 180 / 2)) (Real.cos ((y - x) * π / 180 / 2)) =
      Real.arctan (Real.sin ((y - x) * π / 180 / 2) / Real.cos ((y - x) * π / 180 / 2))
    from if_pos hcos]
  rw [← Real.tan_eq_sin_div_cos, Real.arctan_tan (by linarith) htlt]
  ring

/-! ## Concrete evaluation of the greedy grouping on small inputs -/

/-- Two hotels within the radius seed one cluster. -/
lemma groupHotels_two_close (h1 h2 : Hotel) (zoom : ℝ) (config : ClusteringConfig)
    (hmax : (1 : ℝ) < config.maxClusterSize)
    (hd12 : calculateDistance
        { latitude := h1.latitude, longitude := h1.longitude }
        { latitude := h2.latitude, longitude := h2.longitude } ≤
      pixelDistanceToGeoDistance config.clusterRadius
        ((h1.latitude + h2.latitude) / 2) zoom) :
    groupHotelsByProximity [h1, h2] zoom config = [mkCluster 0 [h1, h2]] := by
  simp only [groupHotelsByProximity]
  rw [if_neg (by norm_num), if_neg (by norm_num)]
  simp [List.enum, List.enumFrom, outerLoop, innerLoop, hd12, hmax]

/-- Two hotels farther apart than the radius produce no cluster. -/
lemma groupHotels_two_far (h1 h2 : Hotel) (zoom : ℝ) (config : ClusteringConfig)
    (hd12 : ¬ calculateDistance
        { latitude := h1.latitude, longitude := h1.longitude }
        { latitude := h2.latitude, longitude := h2.longitude } ≤
      pixelDistanceToGeoDistance config.clusterRadius
        ((h1.latitude + h2.latitude) / 2) zoom) :
    groupHotelsByProximity [h1, h2] zoom config = [] := by
  simp only [groupHotelsByProximity]
  rw [if_neg (by norm_num), if_neg (by norm_num)]
  simp [List.enum, List.enumFrom, outerLoop, innerLoop, hd12]

/-- Three hotels where the second is within radius of the first seed and
the third is not: one cluster of the first two. -/
lemma groupHotels_three_cluster12 (h1 h2 h3 : Hotel) (zoom : ℝ)
    (config : ClusteringConfig)
    (hmax : (1 : ℝ) < config.maxClusterSize)
    (hd12 : calculateDistance
        { latitude := h1.latitude, longitude := h1.longitude }
        { latitude := h2.latitude, longitude := h2.longitude } ≤
      pixelDistanceToGeoDistance config.clusterRadius
        ((h1.latitude + h2.latitude + h3.latitude) / 3) zoom)
    (hd13 : ¬ calculateDistance
        { latitude := h1.latitude, longitude := h1.longitude }
        { latitude := h3.latitude, longitude := h3.longitude } ≤
      pixelDistanceToGeoDistance config.clusterRadius
        ((h1.latitude + h2.latitude + h3.latitude) / 3) zoom) :
    groupHotelsByProximity [h1, h2, h3] zoom config = [mkCluster 0 [h1, h2]] := by
  simp only [groupHotelsByProximity]
  rw [if_neg (by norm_num), if_neg (by norm_num)]
  simp [List.enum, List.enumFrom, outerLoop, innerLoop, hd12, hd13, hmax]

/-- Three hotels all within radius of the first seed: one cluster of all
three. -/
lemma groupHotels_three_cluster123 (h1 h2 h3 : Hotel) (zoom : ℝ)
    (config : ClusteringConfig)
    (hmax1 : (1 : ℝ) < config.maxClusterSize)
    (hmax2 : (2 : ℝ) < config.maxClusterSize)
    (hd12 : calculateDistance
        { latitude := h1.latitude, longitude := h1.longitude }
        { latitude := h2.latitude, longitude := h2.longitude } ≤
      pixelDistanceToGeoDistance config.clusterRadius
        ((h1.latitude + h2.latitude + h3.latitude) / 3) zoom)
    (hd13 : calculateDistance
        { latitude := h1.latitude, longitude := h1.longitude }
        { latitude := h3.latitude, longitude := h3.longitude } ≤
      pixelDistanceToGeoDistance config.clusterRadius
        ((h1.latitude + h2.latitude + h3.latitude) / 3) zoom) :
    groupHotelsByProximity [h1, h2, h3] zoom config = [mkCluster 0 [h1, h2, h3]] := by
  simp only [groupHotelsByProximity]
  rw [if_neg (by norm_num), if_neg (by norm_num)]
  simp [List.enum, List.enumFrom, outerLoop, innerLoop, hd12, hd13, hmax1, hmax2]

/-! ## Concrete equator scenarios -/

/-- A hotel on the equator at a given longitude, with a given id. -/
noncomputable def eqHotel (i : ℕ) (lon : ℝ) : Hotel :=
  { hotel_id := i, name := "", latitude := 0, longitude := lon, address := ""
    star_rating := 0, price_per_night := .num 0, currency := "", rating := 0
    review_count := 0, image_url := "", room_type := "", amenities := [] }

/-- The 50-pixel cluster radius at the equator and zoom 12, in km. -/
lemma pixelRadius_equator :
    pixelDistanceToGeoDistance 50 0 12 = 156543.03392 / 81920 := by
  simp only [pixelDistanceToGeoDistance]
  rw [show (0 : ℝ) * π / 180 = 0 by ring, Real.cos_zero,
    show ((2 : ℝ) ^ (12 : ℝ)) = 4096 by
      rw [show (12 : ℝ) = ((12 : ℕ) : ℝ) by norm_num, Real.rpow_natCast]
      norm_num]
  norm_num

/-- Equator points 0.01° of longitude apart (≈ 1.11 km) are within the
50-px radius at zoom 12 (≈ 1.91 km). -/
lemma equator_close (x y : ℝ) (hxy : y - x = 0.01) :
    calculateDistance ⟨0, x⟩ ⟨0, y⟩ ≤ 156543.03392 / 81920 := by
  rw [calculateDistance_equator x y (by rw [hxy]; norm_num) (by rw [hxy]; norm_num), hxy]
  have := Real.pi_lt_d6
  nlinarith

/-- Equator points 0.02° of longitude apart (≈ 2.22 km) are outside the
50-px radius at zoom 12 (≈ 1.91 km). -/
lemma equator_far (x y : ℝ) (hxy : y - x = 0.02) :
    ¬ calculateDistance ⟨0, x⟩ ⟨0, y⟩ ≤ 156543.03392 / 81920 := by
  rw [calculateDistance_equator x y (by rw [hxy]; norm_num) (by rw [hxy]; norm_num), hxy]
  push_neg
  have := Real.pi_gt_d6
  nlinarith

/-- Grouping two close equator hotels (0.01° apart): one cluster. -/
lemma eval_group_close2 (i j : ℕ) :
    groupHotelsByProximity [eqHotel i 0, eqHotel j 0.01] 12 DEFAULT_CLUSTERING_CONFIG =
      [mkCluster 0 [eqHotel i 0, eqHotel j 0.01]] := by
  apply groupHotels_two_close
  · norm_num [DEFAULT_CLUSTERING_CONFIG]
  · simp only [eqHotel, DEFAULT_CLUSTERING_CONFIG]
    rw [show ((0 : ℝ) + 0) / 2 = 0 by norm_num, pixelRadius_equator]
    exact equator_close 0 0.01 (by norm_num)

/-- Grouping two far equator hotels (0.02° apart): no cluster. -/
lemma eval_group_far2 (i j : ℕ) :
    groupHotelsByProximity [eqHotel i 0, eqHotel j 0.02] 12 DEFAULT_CLUSTERING_CONFIG = [] := by
  apply groupHotels_two_far
  simp only [eqHotel, DEFAULT_CLUSTERING_CONFIG]
  rw [show ((0 : ℝ) + 0) / 2 = 0 by norm_num, pixelRadius_equator]
  exact equator_far 0 0.02 (by norm_num)

/-- Grouping three equator hotels at 0°, 0.01°, 0.02°: the first seeds a
cluster with the second; the third is out of its reach. -/
lemma eval_group_seed_first (i j k : ℕ) :
    groupHotelsByProximity [eqHotel i 0, eqHotel j 0.01, eqHotel k 0.02] 12
        DEFAULT_CLUSTERING_CONFIG =
      [mkCluster 0 [eqHotel i 0, eqHotel j 0.01]] := by
  apply groupHotels_three_cluster12
  · norm_num [DEFAULT_CLUSTERING_CONFIG]
  · simp only [eqHotel, DEFAULT_CLUSTERING_CONFIG]
    rw [show ((0 : ℝ) + 0 + 0) / 3 = 0 by norm_num, pixelRadius_equator]
    exact equator_close 0 0.01 (by norm_num)
  · simp only [eqHotel, DEFAULT_CLUSTERING_CONFIG]
    rw [show ((0 : ℝ) + 0 + 0) / 3 = 0 by norm_num, pixelRadius_equator]
    exact equator_far 0 0.02 (by norm_num)

/-- Grouping the same three equator hotels listed middle-first: the
middle hotel seeds and reaches both neighbours, one cluster of three. -/
lemma eval_group_seed_middle (i j k : ℕ) :
    groupHotelsByProximity [eqHotel j 0.01, eqHotel i 0, eqHotel k 0.02] 12
        DEFAULT_CLUSTERING_CONFIG =
      [mkCluster 0 [eqHotel j 0.01, eqHotel i 0, eqHotel k 0.02]] := by
  apply groupHotels_three_cluster123
  · norm_num [DEFAULT_CLUSTERING_CONFIG]
  · norm_num [DEFAULT_CLUSTERING_CONFIG]
  · simp only [eqHotel, DEFAULT_CLUSTERING_CONFIG]
    rw [show ((0 : ℝ) + 0 + 0) / 3 = 0 by norm_num, pixelRadius_equator,
      calculateDistance_symm]
    exact equator_close 0 0.01 (by norm_num)
  · simp only [eqHotel, DEFAULT_CLUSTERING_CONFIG]
    rw [show ((0 : ℝ) + 0 + 0) / 3 = 0 by norm_num, pixelRadius_equator]
    exact equator_close 0.01 0.02 (by norm_num)

/-- Zoom 12 is inside the default clustering range `[8, 14]`. -/
lemma shouldCluster_12 : shouldCluster 12 DEFAULT_CLUSTERING_CONFIG := by
  constructor <;> norm_num [DEFAULT_CLUSTERING_CONFIG]

/-- Full clustering result for two close equator hotels with distinct
ids: one cluster, no individual hotels. -/
lemma eval_calc_close2 (i j : ℕ) :
    calculateClusters [eqHotel i 0, eqHotel j 0.01] witnessViewport
        DEFAULT_CLUSTERING_CONFIG =
      ⟨[mkCluster 0 [eqHotel i 0, eqHotel j 0.01]], []⟩ := by
  simp only [calculateClusters, show witnessViewport.zoom = 12 from rfl,
    if_pos shouldCluster_12, eval_group_close2 i j]
  simp [mkCluster, eqHotel, List.filter]

/-- Full clustering result for two far equator hotels: no clusters, both
hotels individual. -/
lemma eval_calc_far2 (i j : ℕ) :
    calculateClusters [eqHotel i 0, eqHotel j 0.02] witnessViewport
        DEFAULT_CLUSTERING_CONFIG =
      ⟨[], [eqHotel i 0, eqHotel j 0.02]⟩ := by
  simp only [calculateClusters, show witnessViewport.zoom = 12 from rfl,
    if_pos shouldCluster_12, eval_group_far2 i j]
  simp [List.filter]

/-! ## C1: the cluster id scheme -/

/-- C1. Evaluated at the failing input — two equator hotels with ids 5
and 9 that form one cluster — the code's cluster id is the seed-index
template `"cluster-0-2"` (seed index and member count), not the
membership-sorted id `"cluster-5-9"` required by the claim (and by the
repository's own `ANIMATION_JITTER_FIXES.md`). -/
theorem claim_C1_id_scheme :
    (groupHotelsByProximity [eqHotel 5 0, eqHotel 9 0.01] 12
        DEFAULT_CLUSTERING_CONFIG).map (fun c => c.id) = ["cluster-0-2"] ∧
    (groupHotelsByProximity [eqHotel 5 0, eqHotel 9 0.01] 12
        DEFAULT_CLUSTERING_CONFIG).map (fun c => specClusterId c.hotels) =
      ["cluster-5-9"] ∧
    ("cluster-0-2" : String) ≠ "cluster-5-9" := by
  refine ⟨?_, ?_, by decide⟩
  · rw [eval_group_close2 5 9]
    simp only [List.map_cons, List.map_nil, mkCluster]
    rfl
  · rw [eval_group_close2 5 9]
    simp only [List.map_cons, List.map_nil, mkCluster, specClusterId, eqHotel]
    rfl

/-! ## C2: permutation sensitivity of the grouping -/

/-- C2 counterexample. Three equator hotels at longitudes 0°, 0.01°,
0.02°: listed end-first the result is one 2-cluster (`"cluster-0-2"`),
listed middle-first (a permutation of the same list) it is one 3-cluster
(`"cluster-0-3"`): both the family of member sets and the set of cluster
id strings differ between the two orders. -/
theorem claim_C2_cex :
    ([eqHotel 2 0.01, eqHotel 1 0, eqHotel 3 0.02] : List Hotel).Perm
      [eqHotel 1 0, eqHotel 2 0.01, eqHotel 3 0.02] ∧
    (groupHotelsByProximity [eqHotel 1 0, eqHotel 2 0.01, eqHotel 3 0.02] 12
        DEFAULT_CLUSTERING_CONFIG).map (fun c => c.id) = ["cluster-0-2"] ∧
    (groupHotelsByProximity [eqHotel 2 0.01, eqHotel 1 0, eqHotel 3 0.02] 12
        DEFAULT_CLUSTERING_CONFIG).map (fun c => c.id) = ["cluster-0-3"] ∧
    (groupHotelsByProximity [eqHotel 1 0, eqHotel 2 0.01, eqHotel 3 0.02] 12
        DEFAULT_CLUSTERING_CONFIG).map (fun c => c.hotels.length) = [2] ∧
    (groupHotelsByProximity [eqHotel 2 0.01, eqHotel 1 0, eqHotel 3 0.02] 12
        DEFAULT_CLUSTERING_CONFIG).map (fun c => c.hotels.length) = [3] ∧
    (["cluster-0-2"] : List String) ≠ ["cluster-0-3"] := by
  refine ⟨List.Perm.swap _ _ _, ?_, ?_, ?_, ?_, by decide⟩
  · rw [eval_group_seed_first 1 2 3]
    simp only [List.map_cons, List.map_nil, mkCluster]
    rfl
  · rw [eval_group_seed_middle 1 2 3]
    simp only [List.map_cons, List.map_nil, mkCluster]
    rfl
  · rw [eval_group_seed_first 1 2 3]
    simp [mkCluster]
  · rw [eval_group_seed_middle 1 2 3]
    simp [mkCluster]

/-! ## C4: the cache key ignores membership and positions -/

/-- C4. Evaluated at the failing input: two different two-hotel sets at
the same zoom and config share the cache key `"2-12.0-50"`, so the
second call returns the first call's stale result (one cluster, no
individual hotels) although correct clustering of the second set has no
clusters and two individual hotels. -/
theorem claim_C4_stale_cache :
    ((calculateClustersCached
        (calculateClustersCached emptyClusterCache [eqHotel 1 0, eqHotel 2 0.01]
          witnessViewport DEFAULT_CLUSTERING_CONFIG).2
        [eqHotel 3 0, eqHotel 4 0.02] witnessViewport DEFAULT_CLUSTERING_CONFIG).1 =
      (calculateClustersCached emptyClusterCache [eqHotel 1 0, eqHotel 2 0.01]
        witnessViewport DEFAULT_CLUSTERING_CONFIG).1) ∧
    ((calculateClustersCached
        (calculateClustersCached emptyClusterCache [eqHotel 1 0, eqHotel 2 0.01]
          witnessViewport DEFAULT_CLUSTERING_CONFIG).2
        [eqHotel 3 0, eqHotel 4 0.02] witnessViewport
        DEFAULT_CLUSTERING_CONFIG).1.individualHotels = []) ∧
    (calculateClusters [eqHotel 3 0, eqHotel 4 0.02] witnessViewport
        DEFAULT_CLUSTERING_CONFIG).individualHotels =
      [eqHotel 3 0, eqHotel 4 0.02] := by
  have h1 : calculateClustersCached emptyClusterCache [eqHotel 1 0, eqHotel 2 0.01]
      witnessViewport DEFAULT_CLUSTERING_CONFIG =
      (⟨[mkCluster 0 [eqHotel 1 0, eqHotel 2 0.01]], []⟩,
        ⟨[(clusterCacheKey [eqHotel 1 0, eqHotel 2 0.01] witnessViewport
            DEFAULT_CLUSTERING_CONFIG,
          ⟨[mkCluster 0 [eqHotel 1 0, eqHotel 2 0.01]], []⟩)]⟩) := by
    rw [calculateClustersCached_miss emptyClusterCache [eqHotel 1 0, eqHotel 2 0.01]
      witnessViewport DEFAULT_CLUSTERING_CONFIG rfl]
    rw [calculateClustersOptimized_eq, eval_calc_close2 1 2]
    simp [emptyClusterCache]
  have hk : clusterCacheKey [eqHotel 3 0, eqHotel 4 0.02] witnessViewport
      DEFAULT_CLUSTERING_CONFIG =
      clusterCacheKey [eqHotel 1 0, eqHotel 2 0.01] witnessViewport
        DEFAULT_CLUSTERING_CONFIG := rfl
  have hlook : List.lookup (clusterCacheKey [eqHotel 3 0, eqHotel 4 0.02]
      witnessViewport DEFAULT_CLUSTERING_CONFIG)
      (ClusterCache.entries ⟨[(clusterCacheKey [eqHotel 1 0, eqHotel 2 0.01]
          witnessViewport DEFAULT_CLUSTERING_CONFIG,
        (⟨[mkCluster 0 [eqHotel 1 0, eqHotel 2 0.01]], []⟩ : ClusteringResult))]⟩) =
      some ⟨[mkCluster 0 [eqHotel 1 0, eqHotel 2 0.01]], []⟩ := by
    rw [hk]
    simp [List.lookup]
  have h2 := calculateClustersCached_hit _ [eqHotel 3 0, eqHotel 4 0.02]
    witnessViewport DEFAULT_CLUSTERING_CONFIG _ hlook
  rw [h1, h2]
  exact ⟨rfl, rfl, by rw [eval_calc_far2 3 4]⟩

/-! ## Accounting for the greedy grouping: every hotel lands in at most
one cluster (machinery for C3 and the permutation statement) -/

/-- The inner scan returns the growing group extended by a sublist
`picked` of the scanned pairs, all previously unprocessed; the processed
set grows by exactly the picked indices. -/
lemma innerLoop_spec (seed : Hotel) (r m : ℝ) :
    ∀ (rest : List (ℕ × Hotel)) (cluster : List Hotel) (processed : Finset ℕ),
      ∃ picked : List (ℕ × Hotel),
        picked.Sublist rest ∧
        (innerLoop seed r m rest cluster processed).1 = cluster ++ picked.map Prod.snd ∧
        (innerLoop seed r m rest cluster processed).2 =
          processed ∪ (picked.map Prod.fst).toFinset ∧
        ∀ q ∈ picked, q.1 ∉ processed := by
  intro rest
  induction rest with
  | nil =>
    intro cluster processed
    exact ⟨[], List.Sublist.refl _, by simp [innerLoop], by simp [innerLoop], by simp⟩
  | cons p rest ih =>
    intro cluster processed
    obtain ⟨j, other⟩ := p
    by_cases hj : j ∈ processed
    · obtain ⟨picked, hsub, h1, h2, h3⟩ := ih cluster processed
      refine ⟨picked, hsub.cons _, ?_, ?_, h3⟩
      · rw [innerLoop, if_pos hj]
        exact h1
      · rw [innerLoop, if_pos hj]
        exact h2
    · by_cases hcond : calculateDistance
          { latitude := seed.latitude, longitude := seed.longitude }
          { latitude := other.latitude, longitude := other.longitude } ≤ r ∧
          (cluster.length : ℝ) < m
      · obtain ⟨picked, hsub, h1, h2, h3⟩ := ih (cluster ++ [other]) (insert j processed)
        refine ⟨(j, other) :: picked, hsub.cons₂ _, ?_, ?_, ?_⟩
        · rw [innerLoop, if_neg hj, if_pos hcond, h1]
          simp
        · rw [innerLoop, if_neg hj, if_pos hcond, h2]
          ext a
          simp only [Finset.mem_union, Finset.mem_insert, List.map_cons,
            List.mem_toFinset, List.mem_cons]
          tauto
        · intro q hq
          rcases List.mem_cons.mp hq with h | h
          · rw [h]
            exact hj
          · intro hqproc
            exact h3 q h (Finset.mem_insert_of_mem hqproc)
      · obtain ⟨picked, hsub, h1, h2, h3⟩ := ih cluster processed
        refine ⟨picked, hsub.cons _, ?_, ?_, h3⟩
        · rw [innerLoop, if_neg hj, if_neg hcond]
          exact h1
        · rw [innerLoop, if_neg hj, if_neg hcond]
          exact h2

/-- The outer scan appends to the accumulated clusters members drawn
from a duplicate-free selection `S` of the remaining enumerated pairs,
none previously processed. -/
lemma outerLoop_spec (r m : ℝ) :
    ∀ (rem : List (ℕ × Hotel)) (clusters : List HotelCluster) (processed : Finset ℕ),
      (rem.map Prod.fst).Nodup →
      ∃ S : List (ℕ × Hotel),
        (∀ p ∈ S, p ∈ rem) ∧
        (S.map Prod.fst).Nodup ∧
        (∀ p ∈ S, p.1 ∉ processed) ∧
        (outerLoop r m rem clusters processed).flatMap (fun c => c.hotels) =
          clusters.flatMap (fun c => c.hotels) ++ S.map Prod.snd := by
  intro rem
  induction rem with
  | nil =>
    intro clusters processed _
    exact ⟨[], by simp, by simp, by simp, by simp [outerLoop]⟩
  | cons p rest ih =>
    intro clusters processed hnodup
    obtain ⟨i, hotel⟩ := p
    simp only [List.map_cons, List.nodup_cons] at hnodup
    obtain ⟨hi_rest, hnodup_rest⟩ := hnodup
    by_cases hi : i ∈ processed
    · obtain ⟨S, hmem, hnd, hproc, hmembers⟩ := ih clusters processed hnodup_rest
      refine ⟨S, fun p hp => List.mem_cons_of_mem _ (hmem p hp), hnd, hproc, ?_⟩
      rw [outerLoop, if_pos hi]
      exact hmembers
    · obtain ⟨picked, hsub, hin1, hin2, hin3⟩ :=
        innerLoop_spec hotel r m rest [hotel] (insert i processed)
      by_cases hlen :
          1 < (innerLoop hotel r m rest [hotel] (insert i processed)).1.length
      · obtain ⟨S', hmem', hnd', hproc', hmembers'⟩ :=
          ih (clusters ++ [mkCluster i
            (innerLoop hotel r m rest [hotel] (insert i processed)).1])
            (innerLoop hotel r m rest [hotel] (insert i processed)).2 hnodup_rest
        refine ⟨(i, hotel) :: (picked ++ S'), ?_, ?_, ?_, ?_⟩
        · intro p hp
          rcases List.mem_cons.mp hp with h | h
          · rw [h]
            exact List.mem_cons_self _ _
          · rcases List.mem_append.mp h with h | h
            · exact List.mem_cons_of_mem _ (hsub.mem h)
            · exact List.mem_cons_of_mem _ (hmem' p h)
        · simp only [List.map_cons, List.map_append, List.nodup_cons]
          constructor
          · intro hmem_i
            rcases List.mem_append.mp hmem_i with h | h
            · obtain ⟨q, hq, hq1⟩ := List.mem_map.mp h
              exact hin3 q hq (hq1 ▸ Finset.mem_insert_self i processed)
            · obtain ⟨q, hq, hq1⟩ := List.mem_map.mp h
              have := hproc' q hq
              rw [hin2] at this
              exact this (Finset.mem_union_left _ (hq1 ▸ Finset.mem_insert_self i processed))
          · rw [List.nodup_append]
            refine ⟨(hsub.map Prod.fst).nodup hnodup_rest, hnd', ?_⟩
            intro a ha hb
            obtain ⟨q, hq, hq1⟩ := List.mem_map.mp hb
            have := hproc' q hq
            rw [hin2] at this
            refine this (Finset.mem_union_right _ ?_)
            rw [List.mem_toFinset, hq1]
            exact ha
        · intro q hq
          rcases List.mem_cons.mp hq with h | h
          · rw [h]
            exact hi
          · rcases List.mem_append.mp h with h | h
            · intro hqp
              exact hin3 q h (Finset.mem_insert_of_mem hqp)
            · intro hqp
              have := hproc' q h
              rw [hin2] at this
              exact this (Finset.mem_union_left _ (Finset.mem_insert_of_mem hqp))
        · rw [outerLoop, if_neg hi]
          simp only [if_pos hlen]
          rw [hmembers']
          simp only [List.flatMap_append, List.flatMap_cons, List.flatMap_nil,
            List.append_nil, mkCluster]
          rw [hin1]
          simp
      · obtain ⟨S', hmem', hnd', hproc', hmembers'⟩ :=
          ih clusters (innerLoop hotel r m rest [hotel] (insert i processed)).2
            hnodup_rest
        refine ⟨S', fun p hp => List.mem_cons_of_mem _ (hmem' p hp), hnd', ?_, ?_⟩
        · intro q hq
          intro hqp
          have := hproc' q hq
          rw [hin2] at this
          exact this (Finset.mem_union_left _ (Finset.mem_insert_of_mem hqp))
        · rw [outerLoop, if_neg hi]
          simp only [if_neg hlen]
          exact hmembers'

lemma enumFrom_fst_ge {α : Type} :
    ∀ (l : List α) (k : ℕ) (p : ℕ × α), p ∈ List.enumFrom k l → k ≤ p.1 := by
  intro l
  induction l with
  | nil => intro k p hp; simp at hp
  | cons a l ih =>
    intro k p hp
    rcases List.mem_cons.mp hp with h | h
    · rw [h]
    · exact le_trans (Nat.le_succ k) (ih (k + 1) p h)

lemma enumFrom_fst_nodup {α : Type} :
    ∀ (l : List α) (k : ℕ), ((List.enumFrom k l).map Prod.fst).Nodup := by
  intro l
  induction l with
  | nil => intro k; simp
  | cons a l ih =>
    intro k
    simp only [List.enumFrom, List.map_cons, List.nodup_cons]
    refine ⟨?_, ih (k + 1)⟩
    intro hk
    obtain ⟨q, hq, hq1⟩ := List.mem_map.mp hk
    have := enumFrom_fst_ge l (k + 1) q hq
    omega

lemma enum_fst_nodup {α : Type} (l : List α) : (l.enum.map Prod.fst).Nodup :=
  enumFrom_fst_nodup l 0

/-- All cluster members returned by `groupHotelsByProximity` are the
second components of a duplicate-free (by index) selection of the
enumerated input. -/
lemma groupHotels_members_spec
    (hotels : List Hotel) (zoom : ℝ) (config : ClusteringConfig) :
    ∃ S : List (ℕ × Hotel),
      (∀ p ∈ S, p ∈ hotels.enum) ∧
      (S.map Prod.fst).Nodup ∧
      (groupHotelsByProximity hotels zoom config).flatMap (fun c => c.hotels) =
        S.map Prod.snd := by
  by_cases h0 : hotels.length = 0
  · refine ⟨[], by simp, by simp, ?_⟩
    simp only [groupHotelsByProximity, if_pos h0]
    simp
  · by_cases h1 : hotels.length = 1
    · refine ⟨[], by simp, by simp, ?_⟩
      simp only [groupHotelsByProximity, if_neg h0, if_pos h1]
      simp
    · obtain ⟨S, hmem, hnd, _, hmembers⟩ :=
        outerLoop_spec
          (pixelDistanceToGeoDistance config.clusterRadius
            ((hotels.foldl (fun sum h => sum + h.latitude) (0 : ℝ)) / (hotels.length : ℝ))
            zoom)
          config.maxClusterSize hotels.enum [] ∅ (enum_fst_nodup hotels)
      refine ⟨S, hmem, hnd, ?_⟩
      simp only [groupHotelsByProximity, if_neg h0, if_neg h1]
      rw [hmembers]
      simp

lemma nodup_getElem?_inj {α : Type} {l : List α} (h : l.Nodup) {i j : ℕ} {a : α}
    (hi : l[i]? = some a) (hj : l[j]? = some a) : i = j := by
  rw [List.getElem?_eq_some] at hi hj
  obtain ⟨hi1, hi2⟩ := hi
  obtain ⟨hj1, hj2⟩ := hj
  have hget : l.get ⟨i, hi1⟩ = l.get ⟨j, hj1⟩ := by
    simp only [List.get_eq_getElem]
    rw [hi2, hj2]
  have := List.nodup_iff_injective_get.1 h hget
  exact congrArg Fin.val this

lemma flatMap_hotels_map (clusters : List HotelCluster) (f : Hotel → ℕ) :
    clusters.flatMap (fun c => c.hotels.map f) =
      (clusters.flatMap (fun c => c.hotels)).map f := by
  induction clusters with
  | nil => simp
  | cons c cs ih => simp [ih]

lemma count_filter_eq (l : List ℕ) (q : ℕ → Bool) (a : ℕ) (hq : q a = true) :
    (l.filter q).count a = l.count a := by
  induction l with
  | nil => simp
  | cons b l ih =>
    by_cases hqb : q b
    · rw [List.filter_cons_of_pos hqb, List.count_cons, List.count_cons, ih]
    · rw [List.filter_cons_of_neg hqb, ih, List.count_cons]
      have hba : ¬ (b == a) = true := by
        intro hba
        rw [beq_iff_eq.mp hba, hq] at hqb
        exact hqb rfl
      simp [hba]

lemma map_filter_comm (l : List Hotel) (q : ℕ → Bool) (f : Hotel → ℕ) :
    (l.filter (fun h => q (f h))).map f = (l.map f).filter q := by
  induction l with
  | nil => simp
  | cons a l ih =>
    by_cases hq : q (f a) <;> simp [List.filter, hq, ih]

/-- The multiset of hotel ids coming out of `calculateClusters` (cluster
members and individual hotels together) is a permutation of the input
ids, whenever the input ids are pairwise distinct. -/
lemma calc_out_ids_perm
    (hotels : List Hotel) (viewport : MapViewport) (config : ClusteringConfig)
    (hids : (hotels.map (fun h => h.hotel_id)).Nodup) :
    (((calculateClusters hotels viewport config).clusters.flatMap
          (fun c => c.hotels) ++
        (calculateClusters hotels viewport config).individualHotels).map
      (fun h => h.hotel_id)).Perm (hotels.map (fun h => h.hotel_id)) := by
  by_cases hsc : shouldCluster viewport.zoom config
  case neg =>
    simp [calculateClusters, if_neg hsc]
  case pos =>
  obtain ⟨S, hmem, hnd, hmembers⟩ :=
    groupHotels_members_spec hotels viewport.zoom config
  have hget : ∀ p ∈ S, hotels[p.1]? = some p.2 := by
    intro p hp
    obtain ⟨i, x⟩ := p
    exact List.mk_mem_enum_iff_getElem?.mp (hmem (i, x) hp)
  have hinj : ∀ p ∈ S, ∀ q ∈ S, p.2.hotel_id = q.2.hotel_id → p = q := by
    intro p hp q hq heq
    have hpi : (hotels.map (fun h => h.hotel_id))[p.1]? = some p.2.hotel_id := by
      rw [List.getElem?_map, hget p hp]
      rfl
    have hqi : (hotels.map (fun h => h.hotel_id))[q.1]? = some q.2.hotel_id := by
      rw [List.getElem?_map, hget q hq]
      rfl
    rw [heq] at hpi
    have hij : p.1 = q.1 := nodup_getElem?_inj hids hpi hqi
    have hsnd : p.2 = q.2 := by
      have h1 := hget p hp
      have h2 := hget q hq
      rw [hij] at h1
      rw [h1] at h2
      exact Option.some.inj h2
    exact Prod.ext hij hsnd
  have hSnodup : S.Nodup := List.Nodup.of_map Prod.fst hnd
  have hMnodup : (S.map (fun p => p.2.hotel_id)).Nodup := hSnodup.map_on hinj
  have hMsub : ∀ a ∈ S.map (fun p => p.2.hotel_id),
      a ∈ hotels.map (fun h => h.hotel_id) := by
    intro a ha
    obtain ⟨p, hp, hpa⟩ := List.mem_map.mp ha
    have := hget p hp
    rw [List.getElem?_eq_some] at this
    obtain ⟨hlt, hx⟩ := this
    refine List.mem_map.mpr ⟨p.2, ?_, hpa⟩
    exact hx ▸ List.getElem_mem hlt
  have hc1 : (calculateClusters hotels viewport config).clusters =
      groupHotelsByProximity hotels viewport.zoom config := by
    simp only [calculateClusters, if_pos hsc]
  have hc2 : (calculateClusters hotels viewport config).individualHotels =
      hotels.filter (fun hotel => hotel.hotel_id ∉
        ((groupHotelsByProximity hotels viewport.zoom config).flatMap
          (fun cluster => cluster.hotels.map (fun h => h.hotel_id))).toFinset) := by
    simp only [calculateClusters, if_pos hsc]
  have hL : (groupHotelsByProximity hotels viewport.zoom config).flatMap
      (fun cluster => cluster.hotels.map (fun h => h.hotel_id)) =
      S.map (fun p => p.2.hotel_id) := by
    rw [flatMap_hotels_map, hmembers, List.map_map]
    rfl
  rw [hc1, hc2, hL, List.perm_iff_count]
  intro a
  rw [List.map_append, List.count_append]
  have hM : ((groupHotelsByProximity hotels viewport.zoom config).flatMap
      (fun c => c.hotels)).map (fun h => h.hotel_id) =
      S.map (fun p => p.2.hotel_id) := by
    rw [← flatMap_hotels_map, hL]
  rw [hM]
  rw [show (hotels.filter (fun hotel => hotel.hotel_id ∉
        (S.map (fun p => p.2.hotel_id)).toFinset)).map (fun h => h.hotel_id) =
      (hotels.map (fun h => h.hotel_id)).filter
        (fun a => decide (a ∉ (S.map (fun p => p.2.hotel_id)).toFinset)) from
    map_filter_comm hotels
      (fun a => decide (a ∉ (S.map (fun p => p.2.hotel_id)).toFinset))
      (fun h => h.hotel_id)]
  by_cases hin : a ∈ S.map (fun p => p.2.hotel_id)
  · rw [List.count_eq_one_of_mem hMnodup hin]
    have hqf : (decide (a ∉ (S.map (fun p => p.2.hotel_id)).toFinset)) = false := by
      simp [List.mem_toFinset, hin]
    have hnot : a ∉ (hotels.map (fun h => h.hotel_id)).filter
        (fun a => decide (a ∉ (S.map (fun p => p.2.hotel_id)).toFinset)) := by
      intro hmemf
      have := (List.mem_filter.mp hmemf).2
      rw [hqf] at this
      exact Bool.false_ne_true this
    rw [List.count_eq_zero_of_not_mem hnot,
      List.count_eq_one_of_mem hids (hMsub a hin)]
  · rw [List.count_eq_zero_of_not_mem hin]
    have hqt : (decide (a ∉ (S.map (fun p => p.2.hotel_id)).toFinset)) = true := by
      simp [List.mem_toFinset, hin]
    rw [count_filter_eq _ _ _ hqt]
    omega

/-- C3. For inputs with pairwise-distinct hotel ids, every input hotel's
id appears exactly once across all cluster member lists and the
individual hotels together: the partition is total and point-disjoint. -/
theorem claim_C3_partition
    (hotels : List Hotel) (viewport : MapViewport) (config : ClusteringConfig)
    (hids : (hotels.map (fun h => h.hotel_id)).Nodup) :
    ∀ h ∈ hotels,
      (((calculateClusters hotels viewport config).clusters.flatMap
            (fun c => c.hotels) ++
          (calculateClusters hotels viewport config).individualHotels).map
        (fun g => g.hotel_id)).count h.hotel_id = 1 := by
  intro h hh
  rw [(calc_out_ids_perm hotels viewport config hids).count_eq]
  exact List.count_eq_one_of_mem hids (List.mem_map.mpr ⟨h, hh, rfl⟩)

/-- C3 witness: the partition property applied to the concrete two-hotel
equator input with distinct ids 1 and 2. -/
theorem claim_C3_witness :
    (((calculateClusters [eqHotel 1 0, eqHotel 2 0.01] witnessViewport
            DEFAULT_CLUSTERING_CONFIG).clusters.flatMap (fun c => c.hotels) ++
        (calculateClusters [eqHotel 1 0, eqHotel 2 0.01] witnessViewport
          DEFAULT_CLUSTERING_CONFIG).individualHotels).map
      (fun g => g.hotel_id)).count (eqHotel 1 0).hotel_id = 1 :=
  claim_C3_partition [eqHotel 1 0, eqHotel 2 0.01] witnessViewport
    DEFAULT_CLUSTERING_CONFIG (by simp [eqHotel]) (eqHotel 1 0)
    (List.mem_cons_self _ _)

/-- C2 amended. The grouping is deterministic for a fixed input list,
but permuting the input can change both the member-set family and the
cluster id set (see the counterexample); what is preserved under
permutation — for inputs with pairwise-distinct ids — is the overall
membership: the multiset of ids across cluster members and unclustered
hotels of the permuted input is a permutation of that of the original. -/
theorem claim_C2_amended
    (hotels hotels' : List Hotel) (viewport : MapViewport)
    (config : ClusteringConfig)
    (hids : (hotels.map (fun h => h.hotel_id)).Nodup)
    (hperm : hotels'.Perm hotels) :
    (((calculateClusters hotels' viewport config).clusters.flatMap
          (fun c => c.hotels) ++
        (calculateClusters hotels' viewport config).individualHotels).map
      (fun g => g.hotel_id)).Perm
      (((calculateClusters hotels viewport config).clusters.flatMap
            (fun c => c.hotels) ++
          (calculateClusters hotels viewport config).individualHotels).map
        (fun g => g.hotel_id)) := by
  have hids' : (hotels'.map (fun h => h.hotel_id)).Nodup :=
    (hperm.map (fun h => h.hotel_id)).nodup_iff.mpr hids
  exact (calc_out_ids_perm hotels' viewport config hids').trans
    ((hperm.map (fun h => h.hotel_id)).trans
      (calc_out_ids_perm hotels viewport config hids).symm)

/-- C2 witness: the amended permutation statement applied to the
concrete swap of the two-hotel equator input. -/
theorem claim_C2_witness :
    (((calculateClusters [eqHotel 2 0.01, eqHotel 1 0] witnessViewport
            DEFAULT_CLUSTERING_CONFIG).clusters.flatMap (fun c => c.hotels) ++
        (calculateClusters [eqHotel 2 0.01, eqHotel 1 0] witnessViewport
          DEFAULT_CLUSTERING_CONFIG).individualHotels).map
      (fun g => g.hotel_id)).Perm
      (((calculateClusters [eqHotel 1 0, eqHotel 2 0.01] witnessViewport
            DEFAULT_CLUSTERING_CONFIG).clusters.flatMap (fun c => c.hotels) ++
          (calculateClusters [eqHotel 1 0, eqHotel 2 0.01] witnessViewport
            DEFAULT_CLUSTERING_CONFIG).individualHotels).map
        (fun g => g.hotel_id)) :=
  claim_C2_amended [eqHotel 1 0, eqHotel 2 0.01] [eqHotel 2 0.01, eqHotel 1 0]
    witnessViewport DEFAULT_CLUSTERING_CONFIG (by simp [eqHotel])
    (List.Perm.swap _ _ _)

/-! ## C8: the Seattle three-point scenario — analytic toolkit -/

lemma arctan_nonneg' (x : ℝ) (hx : 0 ≤ x) : 0 ≤ Real.arctan x := by
  rw [← Real.arctan_zero]
  exact Real.arctan_strictMono.monotone hx

lemma sin_le_self (x : ℝ) (hx : 0 ≤ x) : Real.sin x ≤ x := by
  rcases eq_or_lt_of_le hx with h | h
  · rw [← h]
    simp
  · exact (Real.sin_lt h).le

lemma arctan_le_id (x : ℝ) (hx : 0 ≤ x) : Real.arctan x ≤ x := by
  have h1 : Real.arctan x ≤ Real.tan (Real.arctan x) :=
    Real.le_tan (arctan_nonneg' x hx) (Real.arctan_lt_pi_div_two x)
  rwa [Real.tan_arctan] at h1

lemma div_sqrt_le_arctan (x : ℝ) (hx : 0 ≤ x) :
    x / Real.sqrt (1 + x ^ 2) ≤ Real.arctan x := by
  rw [← Real.sin_arctan]
  exact sin_le_self _ (arctan_nonneg' x hx)

/-- The `a` term of the haversine formula in `calculateDistance`. -/
noncomputable def haversineA (c1 c2 : Coordinates) : ℝ :=
  Real.sin ((c2.latitude - c1.latitude) * π / 180 / 2) *
      Real.sin ((c2.latitude - c1.latitude) * π / 180 / 2) +
    Real.cos (c1.latitude * π / 180) * Real.cos (c2.latitude * π / 180) *
      Real.sin ((c2.longitude - c1.longitude) * π / 180 / 2) *
      Real.sin ((c2.longitude - c1.longitude) * π / 180 / 2)

lemma calculateDistance_eq_arctan (c1 c2 : Coordinates)
    (h1 : haversineA c1 c2 < 1) :
    calculateDistance c1 c2 =
      6371 * (2 * Real.arctan (Real.sqrt (haversineA c1 c2) /
        Real.sqrt (1 - haversineA c1 c2))) := by
  have hpos : 0 < Real.sqrt (1 - haversineA c1 c2) :=
    Real.sqrt_pos.mpr (by linarith)
  simp only [calculateDistance, haversineA] at h1 hpos ⊢
  rw [show atan2 (Real.sqrt (Real.sin ((c2.latitude - c1.latitude) * π / 180 / 2) *
        Real.sin ((c2.latitude - c1.latitude) * π / 180 / 2) +
      Real.cos (c1.latitude * π / 180) * Real.cos (c2.latitude * π / 180) *
        Real.sin ((c2.longitude - c1.longitude) * π / 180 / 2) *
        Real.sin ((c2.longitude - c1.longitude) * π / 180 / 2)))
      (Real.sqrt (1 - (Real.sin ((c2.latitude - c1.latitude) * π / 180 / 2) *
        Real.sin ((c2.latitude - c1.latitude) * π / 180 / 2) +
      Real.cos (c1.latitude * π / 180) * Real.cos (c2.latitude * π / 180) *
        Real.sin ((c2.longitude - c1.longitude) * π / 180 / 2) *
        Real.sin ((c2.longitude - c1.longitude) * π / 180 / 2)))) =
      Real.arctan (Real.sqrt (Real.sin ((c2.latitude - c1.latitude) * π / 180 / 2) *
        Real.sin ((c2.latitude - c1.latitude) * π / 180 / 2) +
      Real.cos (c1.latitude * π / 180) * Real.cos (c2.latitude * π / 180) *
        Real.sin ((c2.longitude - c1.longitude) * π / 180 / 2) *
        Real.sin ((c2.longitude - c1.longitude) * π / 180 / 2)) /
      Real.sqrt (1 - (Real.sin ((c2.latitude - c1.latitude) * π / 180 / 2) *
        Real.sin ((c2.latitude - c1.latitude) * π / 180 / 2) +
      Real.cos (c1.latitude * π / 180) * Real.cos (c2.latitude * π / 180) *
        Real.sin ((c2.longitude - c1.longitude) * π / 180 / 2) *
        Real.sin ((c2.longitude - c1.longitude) * π / 180 / 2))))
    from if_pos hpos]

lemma calculateDistance_le_gen (c1 c2 : Coordinates)
    (_ha0 : 0 ≤ haversineA c1 c2) (ha : haversineA c1 c2 ≤ 1 / 2) :
    calculateDistance c1 c2 ≤
      12742 * (Real.sqrt (haversineA c1 c2) /
        Real.sqrt (1 - haversineA c1 c2)) := by
  rw [calculateDistance_eq_arctan c1 c2 (by linarith)]
  have hu : 0 ≤ Real.sqrt (haversineA c1 c2) /
      Real.sqrt (1 - haversineA c1 c2) :=
    div_nonneg (Real.sqrt_nonneg _) (Real.sqrt_nonneg _)
  have := arctan_le_id _ hu
  nlinarith

lemma calculateDistance_ge_gen (c1 c2 : Coordinates)
    (ha0 : 0 ≤ haversineA c1 c2) (ha : haversineA c1 c2 ≤ 1 / 2) :
    12742 * (Real.sqrt (haversineA c1 c2) /
        Real.sqrt (1 + haversineA c1 c2)) ≤ calculateDistance c1 c2 := by
  rw [calculateDistance_eq_arctan c1 c2 (by linarith)]
  have hs1 : Real.sqrt (1 - haversineA c1 c2) ≤ 1 :=
    Real.sqrt_le_one.mpr (by linarith)
  have hs0 : 0 < Real.sqrt (1 - haversineA c1 c2) :=
    Real.sqrt_pos.mpr (by linarith)
  have h1 : Real.sqrt (haversineA c1 c2) ≤
      Real.sqrt (haversineA c1 c2) / Real.sqrt (1 - haversineA c1 c2) := by
    rw [le_div_iff₀ hs0]
    exact mul_le_of_le_one_right (Real.sqrt_nonneg _) hs1
  have h2 : Real.arctan (Real.sqrt (haversineA c1 c2)) ≤
      Real.arctan (Real.sqrt (haversineA c1 c2) /
        Real.sqrt (1 - haversineA c1 c2)) :=
    Real.arctan_strictMono.monotone h1
  have h3 : Real.sqrt (haversineA c1 c2) / Real.sqrt (1 + haversineA c1 c2) ≤
      Real.arctan (Real.sqrt (haversineA c1 c2)) := by
    have := div_sqrt_le_arctan (Real.sqrt (haversineA c1 c2)) (Real.sqrt_nonneg _)
    rwa [Real.sq_sqrt ha0] at this
  nlinarith

/-- Numeric bounds on `cos(lat·π/180)` for Seattle-range latitudes,
via the Taylor bound `|cos x - (1 - x²/2)| ≤ |x|⁴·(5/96)`. -/
lemma cos_seattle (lat : ℝ) (hlo : 47.6 ≤ lat) (hhi : lat ≤ 47.63) :
    0.6295 ≤ Real.cos (lat * π / 180) ∧ Real.cos (lat * π / 180) ≤ 0.6798 := by
  have hπl := Real.pi_gt_d6
  have hπu := Real.pi_lt_d6
  have hθl : 0.830776 ≤ lat * π / 180 := by nlinarith
  have hθu : lat * π / 180 ≤ 0.831301 := by nlinarith
  have habs : |lat * π / 180| ≤ 1 := by
    rw [abs_le]
    constructor <;> nlinarith
  have hb := Real.cos_bound habs
  rw [abs_le] at hb
  obtain ⟨hb1, hb2⟩ := hb
  have hsqu : (lat * π / 180) ^ 2 ≤ 0.831301 ^ 2 := by nlinarith
  have hsql : 0.830776 ^ 2 ≤ (lat * π / 180) ^ 2 := by nlinarith
  have habs4 : |lat * π / 180| ^ 4 ≤ 0.831301 ^ 4 := by
    rw [abs_of_nonneg (by linarith : (0 : ℝ) ≤ lat * π / 180)]
    nlinarith [hsqu, sq_nonneg (lat * π / 180)]
  have habs4' : 0 ≤ |lat * π / 180| ^ 4 := by positivity
  constructor <;> nlinarith

/-- Bounds on the 50-px radius (km) at the mean Seattle latitude and
zoom 12. -/
lemma seattle_radius_bounds :
    1.20 ≤ pixelDistanceToGeoDistance 50 47.6128 12 ∧
      pixelDistanceToGeoDistance 50 47.6128 12 ≤ 1.2991 := by
  obtain ⟨hcl, hcu⟩ := cos_seattle 47.6128 (by norm_num) (by norm_num)
  simp only [pixelDistanceToGeoDistance]
  rw [show ((2 : ℝ) ^ (12 : ℝ)) = 4096 by
    rw [show (12 : ℝ) = ((12 : ℕ) : ℝ) by norm_num, Real.rpow_natCast]
    norm_num]
  constructor <;> nlinarith

lemma haversineA_upper (c1 c2 : Coordinates)
    (hcc0 : 0 ≤ Real.cos (c1.latitude * π / 180) * Real.cos (c2.latitude * π / 180))
    (hcc1 : Real.cos (c1.latitude * π / 180) * Real.cos (c2.latitude * π / 180) ≤ 1) :
    0 ≤ haversineA c1 c2 ∧
      haversineA c1 c2 ≤ ((c2.latitude - c1.latitude) * π / 180 / 2) ^ 2 +
        ((c2.longitude - c1.longitude) * π / 180 / 2) ^ 2 := by
  unfold haversineA
  have h1 : Real.sin ((c2.latitude - c1.latitude) * π / 180 / 2) ^ 2 ≤
      ((c2.latitude - c1.latitude) * π / 180 / 2) ^ 2 := Real.sin_sq_le_sq
  have h2 : Real.sin ((c2.longitude - c1.longitude) * π / 180 / 2) ^ 2 ≤
      ((c2.longitude - c1.longitude) * π / 180 / 2) ^ 2 := Real.sin_sq_le_sq
  constructor
  · nlinarith [mul_self_nonneg (Real.sin ((c2.latitude - c1.latitude) * π / 180 / 2)),
      mul_self_nonneg (Real.sin ((c2.longitude - c1.longitude) * π / 180 / 2))]
  · nlinarith [mul_self_nonneg (Real.sin ((c2.longitude - c1.longitude) * π / 180 / 2)),
      mul_self_nonneg (Real.sin ((c2.latitude - c1.latitude) * π / 180 / 2))]

lemma haversineA_lower (c1 c2 : Coordinates) (P slat slon : ℝ)
    (hP : P ≤ Real.cos (c1.latitude * π / 180) * Real.cos (c2.latitude * π / 180))
    (hP0 : 0 ≤ P)
    (hslat : slat ≤ Real.sin ((c2.latitude - c1.latitude) * π / 180 / 2))
    (hslat0 : 0 ≤ slat)
    (hslon : slon ≤ -Real.sin ((c2.longitude - c1.longitude) * π / 180 / 2))
    (hslon0 : 0 ≤ slon) :
    slat ^ 2 + P * slon ^ 2 ≤ haversineA c1 c2 := by
  unfold haversineA
  have hlat : slat ^ 2 ≤ Real.sin ((c2.latitude - c1.latitude) * π / 180 / 2) *
      Real.sin ((c2.latitude - c1.latitude) * π / 180 / 2) := by nlinarith
  have hlon : slon ^ 2 ≤ Real.sin ((c2.longitude - c1.longitude) * π / 180 / 2) *
      Real.sin ((c2.longitude - c1.longitude) * π / 180 / 2) := by nlinarith
  nlinarith [mul_self_nonneg (Real.sin ((c2.longitude - c1.longitude) * π / 180 / 2)),
    mul_le_mul_of_nonneg_left hlon hP0,
    mul_le_mul_of_nonneg_right hP
      (mul_self_nonneg (Real.sin ((c2.longitude - c1.longitude) * π / 180 / 2)))]

/-- Points 1 and 2 of the scenario (≈ 0.08 km apart) are within the
radius (≥ 1.20 km). -/
lemma seattle_d12_le_r :
    calculateDistance ⟨47.6089, -122.3345⟩ ⟨47.6095, -122.3340⟩ ≤
      pixelDistanceToGeoDistance 50 47.6128 12 := by
  have hπl := Real.pi_gt_d6
  have hπu := Real.pi_lt_d6
  obtain ⟨hc1l, hc1u⟩ := cos_seattle 47.6089 (by norm_num) (by norm_num)
  obtain ⟨hc2l, hc2u⟩ := cos_seattle 47.6095 (by norm_num) (by norm_num)
  obtain ⟨hA0, hAu⟩ := haversineA_upper ⟨47.6089, -122.3345⟩ ⟨47.6095, -122.3340⟩
    (by nlinarith) (by nlinarith)
  simp only at hA0 hAu
  have hAu5 : haversineA ⟨47.6089, -122.3345⟩ ⟨47.6095, -122.3340⟩ ≤ 0.00000000005 := by
    nlinarith [hAu, sq_nonneg π]
  have hd := calculateDistance_le_gen ⟨47.6089, -122.3345⟩ ⟨47.6095, -122.3340⟩
    hA0 (by nlinarith)
  have hsA : Real.sqrt (haversineA ⟨47.6089, -122.3345⟩ ⟨47.6095, -122.3340⟩) ≤
      0.0000071 := by
    have h := Real.sqrt_le_sqrt (show haversineA ⟨47.6089, -122.3345⟩
        ⟨47.6095, -122.3340⟩ ≤ (0.0000071 : ℝ) ^ 2 by nlinarith)
    rwa [Real.sqrt_sq (by norm_num)] at h
  have hs1A : (0.7 : ℝ) ≤ Real.sqrt (1 - haversineA ⟨47.6089, -122.3345⟩
      ⟨47.6095, -122.3340⟩) := by
    rw [Real.le_sqrt (by norm_num) (by nlinarith)]
    nlinarith
  have hquot : Real.sqrt (haversineA ⟨47.6089, -122.3345⟩ ⟨47.6095, -122.3340⟩) /
      Real.sqrt (1 - haversineA ⟨47.6089, -122.3345⟩ ⟨47.6095, -122.3340⟩) ≤
      0.0000071 / 0.7 :=
    div_le_div₀ (by norm_num) hsA (by norm_num) hs1A
  have hr := seattle_radius_bounds.1
  nlinarith

set_option maxHeartbeats 1000000 in
/-- Point 3 of the scenario (≈ 1.7 km from point 1) is outside the
radius (≤ 1.2991 km). -/
lemma seattle_d13_gt_r :
    ¬ calculateDistance ⟨47.6089, -122.3345⟩ ⟨47.6200, -122.3500⟩ ≤
      pixelDistanceToGeoDistance 50 47.6128 12 := by
  push_neg
  have hπl := Real.pi_gt_d6
  have hπu := Real.pi_lt_d6
  obtain ⟨hc1l, hc1u⟩ := cos_seattle 47.6089 (by norm_num) (by norm_num)
  obtain ⟨hc3l, hc3u⟩ := cos_seattle 47.6200 (by norm_num) (by norm_num)
  obtain ⟨hA0, hAu⟩ := haversineA_upper ⟨47.6089, -122.3345⟩ ⟨47.6200, -122.3500⟩
    (by nlinarith) (by nlinarith)
  simp only at hA0 hAu
  have hAu28 : haversineA ⟨47.6089, -122.3345⟩ ⟨47.6200, -122.3500⟩ ≤
      0.000000028 := by
    nlinarith [hAu, sq_nonneg π]
  -- lower bound on sin of the latitude half-angle
  have htlat_l : (0.000096865 : ℝ) ≤ (47.6200 - 47.6089) * π / 180 / 2 := by
    nlinarith
  have htlat_u : (47.6200 - 47.6089) * π / 180 / 2 ≤ 0.0001 := by
    nlinarith
  have htlat_0 : (0 : ℝ) < (47.6200 - 47.6089) * π / 180 / 2 := by linarith
  have hcube_lat : ((47.6200 - 47.6089) * π / 180 / 2) ^ 3 ≤
      0.00000001 * ((47.6200 - 47.6089) * π / 180 / 2) := by
    nlinarith [htlat_0, htlat_u]
  have hslat : (0.0000968 : ℝ) ≤
      Real.sin ((47.6200 - 47.6089) * π / 180 / 2) := by
    have h := Real.sin_gt_sub_cube htlat_0 (by linarith)
    linarith
  -- lower bound on sin of the (negated) longitude half-angle
  have htlon_l : (0.00013526 : ℝ) ≤ -((-122.3500 - -122.3345) * π / 180 / 2) := by
    nlinarith
  have htlon_u : -((-122.3500 - -122.3345) * π / 180 / 2) ≤ 0.00014 := by
    nlinarith
  have htlon_0 : (0 : ℝ) < -((-122.3500 - -122.3345) * π / 180 / 2) := by linarith
  have hcube_lon : (-((-122.3500 - -122.3345) * π / 180 / 2)) ^ 3 ≤
      0.00000002 * (-((-122.3500 - -122.3345) * π / 180 / 2)) := by
    nlinarith [htlon_0, htlon_u]
  have hslon : (0.000135 : ℝ) ≤
      -Real.sin ((-122.3500 - -122.3345) * π / 180 / 2) := by
    have h := Real.sin_gt_sub_cube htlon_0 (by linarith)
    rw [Real.sin_neg] at h
    linarith
  have hAl := haversineA_lower ⟨47.6089, -122.3345⟩ ⟨47.6200, -122.3500⟩
    (0.6295 * 0.6295) 0.0000968 0.000135 (by nlinarith) (by norm_num)
    hslat (by norm_num) hslon (by norm_num)
  have hd := calculateDistance_ge_gen ⟨47.6089, -122.3345⟩ ⟨47.6200, -122.3500⟩
    hA0 (by linarith)
  have hsAl : (0.000128 : ℝ) ≤
      Real.sqrt (haversineA ⟨47.6089, -122.3345⟩ ⟨47.6200, -122.3500⟩) := by
    rw [Real.le_sqrt (by norm_num) (by linarith)]
    nlinarith
  have hs1A : Real.sqrt (1 + haversineA ⟨47.6089, -122.3345⟩ ⟨47.6200, -122.3500⟩) ≤
      1.001 := by
    have h := Real.sqrt_le_sqrt (show 1 + haversineA ⟨47.6089, -122.3345⟩
        ⟨47.6200, -122.3500⟩ ≤ (1.001 : ℝ) ^ 2 by nlinarith)
    rwa [Real.sqrt_sq (by norm_num)] at h
  have hquot : (0.000128 : ℝ) / 1.001 ≤
      Real.sqrt (haversineA ⟨47.6089, -122.3345⟩ ⟨47.6200, -122.3500⟩) /
        Real.sqrt (1 + haversineA ⟨47.6089, -122.3345⟩ ⟨47.6200, -122.3500⟩) :=
    div_le_div₀ (Real.sqrt_nonneg _) hsAl
      (Real.sqrt_pos.mpr (by linarith)) hs1A
  have hr := seattle_radius_bounds.2
  nlinarith [hquot, hd, hr]

/-! ## C8: the scenario itself (the source's `testClustering` data) -/

noncomputable def testHotelA : Hotel :=
  { hotel_id := 1, name := "Test Hotel A", latitude := 47.6089
    longitude := -122.3345, address := "123 Test St", star_rating := 4
    price_per_night := .num 200, currency := "USD", rating := 8.5
    review_count := 100, image_url := "test.jpg", room_type := "Standard"
    amenities := ["WiFi", "Parking"] }

noncomputable def testHotelB : Hotel :=
  { hotel_id := 2, name := "Test Hotel B", latitude := 47.6095
    longitude := -122.3340, address := "456 Test St", star_rating := 3
    price_per_night := .num 150, currency := "USD", rating := 7.8
    review_count := 80, image_url := "test.jpg", room_type := "Standard"
    amenities := ["WiFi"] }

noncomputable def testHotelC : Hotel :=
  { hotel_id := 3, name := "Test Hotel C", latitude := 47.6200
    longitude := -122.3500, address := "789 Test St", star_rating := 5
    price_per_night := .num 300, currency := "USD", rating := 9.2
    review_count := 200, image_url := "test.jpg", room_type := "Luxury"
    amenities := ["WiFi", "Spa", "Pool"] }

noncomputable def testViewport : MapViewport :=
  { bounds := { northeast := { latitude := 47.62, longitude := -122.30 }
                southwest := { latitude := 47.60, longitude := -122.36 } }
    center := { latitude := 47.6089, longitude := -122.3345 }
    zoom := 12 }

/-- Grouping the three Seattle test hotels at zoom 12: hotels A and B
cluster; C stays out. -/
lemma eval_group_seattle :
    groupHotelsByProximity [testHotelA, testHotelB, testHotelC] 12
        DEFAULT_CLUSTERING_CONFIG =
      [mkCluster 0 [testHotelA, testHotelB]] := by
  apply groupHotels_three_cluster12
  · norm_num [DEFAULT_CLUSTERING_CONFIG]
  · simp only [testHotelA, testHotelB, testHotelC, DEFAULT_CLUSTERING_CONFIG]
    rw [show ((47.6089 : ℝ) + 47.6095 + 47.6200) / 3 = 47.6128 by norm_num]
    exact seattle_d12_le_r
  · simp only [testHotelA, testHotelB, testHotelC, DEFAULT_CLUSTERING_CONFIG]
    rw [show ((47.6089 : ℝ) + 47.6095 + 47.6200) / 3 = 47.6128 by norm_num]
    exact seattle_d13_gt_r

/-- C8. For the three scenario points at zoom 12 with the default
config, clustering returns exactly one cluster whose member list is the
first two points (ids 1 and 2) and exactly one unclustered hotel (the
third point, id 3). -/
theorem claim_C8_scenario :
    (calculateClusters [testHotelA, testHotelB, testHotelC] testViewport
        DEFAULT_CLUSTERING_CONFIG).clusters.length = 1 ∧
    (calculateClusters [testHotelA, testHotelB, testHotelC] testViewport
        DEFAULT_CLUSTERING_CONFIG).clusters.map (fun c => c.hotels.length) = [2] ∧
    (calculateClusters [testHotelA, testHotelB, testHotelC] testViewport
        DEFAULT_CLUSTERING_CONFIG).individualHotels.length = 1 ∧
    ((calculateClusters [testHotelA, testHotelB, testHotelC] testViewport
        DEFAULT_CLUSTERING_CONFIG).clusters.flatMap (fun c => c.hotels)).map
      (fun h => h.hotel_id) = [1, 2] ∧
    (calculateClusters [testHotelA, testHotelB, testHotelC] testViewport
        DEFAULT_CLUSTERING_CONFIG).individualHotels.map
      (fun h => h.hotel_id) = [3] := by
  have hcc : calculateClusters [testHotelA, testHotelB, testHotelC] testViewport
      DEFAULT_CLUSTERING_CONFIG =
      ⟨[mkCluster 0 [testHotelA, testHotelB]], [testHotelC]⟩ := by
    simp only [calculateClusters, show testViewport.zoom = 12 from rfl,
      if_pos shouldCluster_12, eval_group_seattle]
    simp [mkCluster, testHotelA, testHotelB, testHotelC, List.filter]
  rw [hcc]
  refine ⟨rfl, ?_, rfl, ?_, ?_⟩
  · simp [mkCluster]
  · simp [mkCluster, testHotelA, testHotelB]
  · simp [testHotelC]
